import Mathlib

/-!
Verification of `generate_keyboard_svg.py` (keyboard layout SVG generator).

Strings from the Python source are modelled as `List Char`; integer and
float arithmetic on coordinates is modelled over `ℚ` (all divisions in the
source are exact over the rationals; the one square root is eliminated by
squaring both sides of its comparison, which is exact since both sides are
nonnegative).  Fallible file access is modelled with `Option`/`Except`.
-/

set_option autoImplicit false

namespace KeyboardSvg

/-- Characters of a string literal. -/
def tStr (s : String) : List Char := s.data

/-- Python `str.startswith`. -/
def strStartsWith : List Char → List Char → Bool
  | _, [] => true
  | [], _ :: _ => false
  | c :: cs, p :: ps => c == p && strStartsWith cs ps

/-- Python `in` on strings (substring containment). -/
def containsSubstr : List Char → List Char → Bool
  | [], pat => pat.isEmpty
  | c :: t, pat => strStartsWith (c :: t) pat || containsSubstr t pat

/-- ASCII whitespace, for Python `str.strip`. -/
def isPyWS (c : Char) : Bool :=
  c == ' ' || c == Char.ofNat 9 || c == Char.ofNat 10 || c == Char.ofNat 13

/-- Python `str.strip` (whitespace from both ends). -/
def pyStrip (s : List Char) : List Char :=
  ((s.dropWhile isPyWS).reverse.dropWhile isPyWS).reverse

/-- Python `str.split(sep)` for a one-character separator. -/
def splitOnChar (sep : Char) : List Char → List (List Char)
  | [] => [[]]
  | c :: t =>
    match splitOnChar sep t with
    | [] => if c == sep then [[], []] else [[c]]
    | h :: r => if c == sep then [] :: h :: r else (c :: h) :: r

/-- Fuel-driven core of `replaceAll`; the fuel bounds the number of steps. -/
def replaceAllAux (pat rep : List Char) : Nat → List Char → List Char
  | _, [] => []
  | 0, s => s
  | fuel + 1, c :: t =>
    if strStartsWith (c :: t) pat && !pat.isEmpty then
      rep ++ replaceAllAux pat rep fuel ((c :: t).drop pat.length)
    else
      c :: replaceAllAux pat rep fuel t

/-- Python `str.replace(pat, rep)`: replace all non-overlapping occurrences
left to right.  (The source only ever calls it with a nonempty pattern;
an empty pattern is modelled as the identity.) -/
def replaceAll (pat rep s : List Char) : List Char :=
  replaceAllAux pat rep s.length s

/-- Python dict built from a literal entry list, looked up with `get`:
the last binding of a key wins. -/
def pyDictLookup {α β : Type} [DecidableEq α] (l : List (α × β)) (k : α) : Option β :=
  l.foldl (fun acc p => if p.1 = k then some p.2 else acc) none

/-- `escape_xml`: the five sequential `str.replace` calls of the source,
in source order (`&` first, then `<`, `>`, `"`, `'`). -/
def escape_xml (s : List Char) : List Char :=
  replaceAll [Char.ofNat 39] (tStr "&apos;")
    (replaceAll [Char.ofNat 34] (tStr "&quot;")
      (replaceAll (tStr ">") (tStr "&gt;")
        (replaceAll (tStr "<") (tStr "&lt;")
          (replaceAll (tStr "&") (tStr "&amp;") s))))

/-- The `shifted_map` dict literal of `format_key_label`. -/
def shifted_map : List (List Char × List Char) :=
  [ (tStr "9", tStr "("),
    (tStr "0", tStr ")"),
    (tStr "[", [Char.ofNat 123]),
    (tStr "]", [Char.ofNat 125]),
    (tStr "1", tStr "!"),
    (tStr "2", tStr "@"),
    (tStr "3", [Char.ofNat 35]),
    (tStr "4", tStr "$"),
    (tStr "5", tStr "%"),
    (tStr "6", tStr "^"),
    (tStr "7", tStr "&"),
    (tStr "8", tStr "*"),
    (tStr "-", tStr "_"),
    (tStr "=", tStr "+"),
    (tStr ";", tStr ":"),
    ([Char.ofNat 39], [Char.ofNat 34]),
    (tStr ",", tStr "<"),
    (tStr ".", tStr ">"),
    (tStr "/", tStr "?"),
    ([Char.ofNat 96], tStr "~"),
    ([Char.ofNat 92], tStr "|") ]

/-- The `replacements` dict literal of `format_key_label`. -/
def replacements : List (List Char × List Char) :=
  [ (tStr "tab", tStr "TAB"),
    (tStr "esc", tStr "ESC"),
    (tStr "bspc", tStr "BSPC"),
    (tStr "ent", tStr "ENT"),
    (tStr "spc", tStr "SPC"),
    (tStr "comm", tStr ","),
    (tStr "lsft", tStr "LSFT"),
    (tStr "LShift", tStr "LSft"),
    (tStr "LCtrl", tStr "LCtl"),
    (tStr "mprv", tStr "PREV"),
    (tStr "mnxt", tStr "NEXT"),
    (tStr "volu", tStr "VOL+"),
    (tStr "vold", tStr "VOL-"),
    (tStr "mute", tStr "MUTE"),
    (tStr "mply", tStr "PLAY"),
    (tStr "PgUp", tStr "PgUp"),
    (tStr "PgDn", tStr "PgDn"),
    (tStr "Left", tStr "Left"),
    (tStr "Right", tStr "Right"),
    (tStr "Down", tStr "Down"),
    (tStr "Up", tStr "Up"),
    (tStr "Del", tStr "Del"),
    (tStr "Ins", tStr "Ins") ]

/-- The modifier-shortening chain of the `MT(...)` branch:
`.replace("LGui","Gui").replace("LAlt","Alt").replace("LShift","Sft").replace("LCtrl","Ctl")`. -/
def shortenMod (m : List Char) : List Char :=
  replaceAll (tStr "LCtrl") (tStr "Ctl")
    (replaceAll (tStr "LShift") (tStr "Sft")
      (replaceAll (tStr "LAlt") (tStr "Alt")
        (replaceAll (tStr "LGui") (tStr "Gui") m)))

/-- The `MT(` branch of `format_key_label`: when the token starts with
`MT(`, the bracketed content (token minus the first three and last one
characters) is split on commas and each part stripped; exactly two parts
give the mod-tap label.  `none` means the branch fell through. -/
def mt_label (key : List Char) : Option (List (List Char) × Bool) :=
  if strStartsWith key (tStr "MT(") then
    match (splitOnChar ',' ((key.drop 3).dropLast)).map pyStrip with
    | [main_key, modifier] => some ([main_key ++ tStr "/" ++ shortenMod modifier], true)
    | _ => none
  else none

/-- The `SHIFTED(` branch of `format_key_label`. -/
def shifted_label (key : List Char) : List (List Char) × Bool :=
  match pyDictLookup shifted_map ((key.drop 8).dropLast) with
  | some d => ([d], false)
  | none => ([tStr "S-" ++ (key.drop 8).dropLast], false)

/-- The fallthrough branch of `format_key_label`: `replacements.get(key, key)`
with small font for labels longer than three characters. -/
def plain_label (key : List Char) : List (List Char) × Bool :=
  ([(pyDictLookup replacements key).getD key],
   decide (3 < ((pyDictLookup replacements key).getD key).length))

/-- `format_key_label`: returns the display lines and the small-font flag. -/
def format_key_label (key : List Char) : List (List Char) × Bool :=
  if key = [] ∨ key = tStr "_" then ([tStr "—"], false)
  else
    match mt_label key with
    | some r => r
    | none =>
      if strStartsWith key (tStr "SHIFTED(") then shifted_label key
      else plain_label key

/-- A combo entry of `[behavior.combo.combos]`: the `actions` key list, the
`output` token, and the `layer` field (`combo.get("layer", 0)`). -/
structure Combo where
  actions : List (List Char)
  output : List Char
  layer : Nat
deriving DecidableEq

/-- The parts of the parsed `keyboard.toml` that the generator reads:
`layout.keymap` (layers of rows of tokens), `layout.layers`,
`keyboard.name`, and the optional `[behavior.combo]` table
(`none` when the table is absent). -/
structure Config where
  keymap : List (List (List (List Char)))
  layers : Nat
  name : List Char
  combos : Option (List Combo)
deriving DecidableEq

/-- One markup element of the generated SVG text.  The source builds flat
strings; here each emitted `<rect>`, `<text>`, `<line>`, `<circle>`,
comment, and `<g ...>` / `</g>` tag is one element, in emission order.
The CSS style header is modelled opaquely by its dimensions. -/
inductive Svg where
  | rect (x y w h : ℚ) (cls : List Char) (fill : Option (List Char))
  | text (x y : ℚ) (cls : List Char) (content : List Char)
  | line (x1 y1 x2 y2 : ℚ) (cls : List Char)
  | circle (cx cy r : ℚ) (cls : List Char)
  | comment (s : List Char)
  | groupOpen (gid : List Char) (tx ty : ℚ)
  | groupClose
deriving DecidableEq

/-- The `LAYER_COLORS` dict literal. -/
def LAYER_COLORS : List (Nat × List Char) :=
  [ (0, tStr "#f0f0f0"),
    (1, tStr "#e8f4f8"),
    (2, tStr "#fff4e8"),
    (3, tStr "#f0e8ff"),
    (4, tStr "#f8e8f0") ]

/-- The `LEFT_POSITIONS` list literal (`None` entries are `none`). -/
def LEFT_POSITIONS : List (Option (ℚ × ℚ)) :=
  [ some (0, 40), some (60, 40), some (120, 30), some (180, 20), some (240, 30), some (300, 40),
    some (0, 100), some (60, 100), some (120, 90), some (180, 80), some (240, 90), some (300, 100),
    some (0, 160), some (60, 160), some (120, 150), some (180, 140), some (240, 150), some (300, 160),
    none, none, none, some (180, 220), some (240, 235), some (300, 250) ]

/-- The `RIGHT_POSITIONS` list literal. -/
def RIGHT_POSITIONS : List (Option (ℚ × ℚ)) :=
  [ some (500, 40), some (560, 30), some (620, 20), some (680, 30), some (740, 40), some (800, 40),
    some (500, 100), some (560, 90), some (620, 80), some (680, 90), some (740, 100), some (800, 100),
    some (500, 160), some (560, 150), some (620, 140), some (680, 150), some (740, 160), some (800, 160),
    some (500, 250), some (560, 235), some (620, 220), none, none, none ]

/-- Row `row`, column `col` of a layer's keymap.  (The source indexes
directly; out-of-range indices, which raise in Python, are modelled as the
empty token.) -/
def getTok (layer_keys : List (List (List Char))) (row col : Nat) : List Char :=
  (layer_keys.getD row []).getD col []

/-- `are_keys_contiguous`: the source compares the Euclidean distance to 80;
squaring both (nonnegative) sides makes the test exact over `ℚ`. -/
def are_keys_contiguous (pos1 pos2 : ℚ × ℚ) : Bool :=
  decide ((pos2.1 - pos1.1) ^ 2 + (pos2.2 - pos1.2) ^ 2 < 6400)

/-- The entries written into `self.key_positions[layer_idx]` by
`build_key_position_map`, in insertion order: left half row-major, then
right half row-major; `None` positions and blank or `"_"` tokens are
skipped. -/
def build_key_position_map (layer_keys : List (List (List Char))) : List (List Char × (ℚ × ℚ)) :=
  ((List.range 4).flatMap fun row =>
    (List.range 6).filterMap fun col =>
      match LEFT_POSITIONS.getD (row * 6 + col) none with
      | none => none
      | some pos =>
        let key := getTok layer_keys row col
        if key ≠ [] ∧ key ≠ tStr "_" then some (key, pos) else none) ++
  ((List.range 4).flatMap fun row =>
    (List.range 6).filterMap fun col =>
      match RIGHT_POSITIONS.getD (row * 6 + col) none with
      | none => none
      | some pos =>
        let key := getTok layer_keys row (col + 6)
        if key ≠ [] ∧ key ≠ tStr "_" then some (key, pos) else none)

/-- `self.key_positions` after `generate`'s build loop: a per-layer dict is
present exactly for the layers the loop visits (`layer_idx < layers`) that
`build_key_position_map` does not skip (`layer_idx < len(keymap)`). -/
def key_positions (cfg : Config) (layer_idx : Nat) : Option (List (List Char × (ℚ × ℚ))) :=
  if layer_idx < cfg.layers then
    if h : layer_idx < cfg.keymap.length then
      some (build_key_position_map (cfg.keymap.get ⟨layer_idx, h⟩))
    else none
  else none

/-- `find_key_position`. -/
def find_key_position (cfg : Config) (key_name : List Char) (layer_idx : Nat) :
    Option (ℚ × ℚ) :=
  match key_positions cfg layer_idx with
  | none => none
  | some d => pyDictLookup d key_name

/-- The combo output label: `format_key_label(output)` first line, escaped
(`lines[0] if lines else output`). -/
def combo_output_label (output : List Char) : List Char :=
  escape_xml ((format_key_label output).1.headD output)

/-- The `positions` list of `generate_combo_visual`: the combo's action
tokens paired with their resolved positions, dropping unresolved ones. -/
def combo_positions (cfg : Config) (combo : Combo) (layer_idx : Nat) :
    List (List Char × (ℚ × ℚ)) :=
  combo.actions.filterMap fun action_key =>
    (find_key_position cfg action_key layer_idx).map fun pos => (action_key, pos)

/-- The `all_contiguous` loop of `generate_combo_visual`: consecutive pairs. -/
def chainContig : List (List Char × (ℚ × ℚ)) → Bool
  | [] => true
  | [_] => true
  | a :: b :: rest => are_keys_contiguous a.2 b.2 && chainContig (b :: rest)

/-- `generate_combo_visual`. -/
def generate_combo_visual (cfg : Config) (combo : Combo) (layer_idx : Nat)
    (x_offset y_offset : ℚ) : List Svg :=
  if combo.layer ≠ layer_idx then []
  else if combo.actions.length < 2 then []
  else if (combo_positions cfg combo layer_idx).length < 2 then []
  else
    let adjusted := (combo_positions cfg combo layer_idx).map fun p =>
      (p.1, (p.2.1 + x_offset, p.2.2 + y_offset))
      let all_contiguous := chainContig adjusted
      if all_contiguous ∧ adjusted.length = 2 then
        let p1 := (adjusted.getD 0 ([], (0, 0))).2
        let p2 := (adjusted.getD 1 ([], (0, 0))).2
        let center_x := (p1.1 + p2.1) / 2 + 25
        let center_y := (p1.2 + p2.2) / 2 + 25
        [ Svg.rect (center_x - 14) (center_y - 14) 28 28 (tStr "combo-overlay") none,
          Svg.text center_x (center_y + 5) (tStr "combo-overlay-text")
            (combo_output_label combo.output) ]
      else
        let p1 := (adjusted.getD 0 ([], (0, 0))).2
        Svg.comment (tStr "Combo connection lines") ::
        ((adjusted.drop 1).map fun p =>
          Svg.line (p1.1 + 25) (p1.2 + 25) (p.2.1 + 25) (p.2.2 + 25) (tStr "combo-line")) ++
        (if adjusted.length = 2 then
          let p2 := (adjusted.getD 1 ([], (0, 0))).2
          let mid_x := ((p1.1 + 25) + (p2.1 + 25)) / 2
          let mid_y := ((p1.2 + 25) + (p2.2 + 25)) / 2
          [ Svg.circle mid_x mid_y 15 (tStr "combo-overlay"),
            Svg.text mid_x (mid_y + 4) (tStr "combo-overlay-text")
              (combo_output_label combo.output) ]
        else [])

/-- `generate_key`: the two `<rect>`/`<text>` shapes of a single key. -/
def generate_key (x y : ℚ) (label : List Char) (layer_idx : Nat)
    (is_transparent : Bool) : List Svg :=
  if is_transparent || label = [] || label = tStr "_" then
    [ Svg.rect x y 50 50 (tStr "key-empty") none,
      Svg.text (x + 25) (y + 28) (tStr "empty-label") (tStr "—") ]
  else
    let fm := format_key_label label
    let color := (pyDictLookup LAYER_COLORS layer_idx).getD (tStr "#f0f0f0")
    let font_class := if fm.2 then tStr "key-small" else []
    Svg.rect x y 50 50 (tStr "key") (some color) ::
    (if fm.1.length = 1 then
      [Svg.text (x + 25) (y + 30) (tStr "key-text " ++ font_class)
        (escape_xml (fm.1.headD []))]
    else
      fm.1.enum.map fun p =>
        Svg.text (x + 25) (y + 22 + 12 * (p.1 : ℚ)) (tStr "key-text " ++ font_class)
          (escape_xml p.2))

/-- One pass of `_extract_layer_names` over the remaining lines, carrying
`in_keymap`, the running layer index, the candidate comment, and the names
committed so far.  A line whose stripped form is `]` (inside the keymap)
stops the scan.  The commit guard `stripped == "[" and last_comment` uses
Python string truthiness: `None` and the empty string both fail it, so a
bare `#` comment (empty candidate) never commits and never advances the
layer index. -/
def extractAux : Bool → Nat → Option (List Char) → List (Nat × List Char) →
    List (List Char) → List (Nat × List Char)
  | _, _, _, names, [] => names
  | in_keymap, idx, last_comment, names, line :: rest =>
    let stripped := pyStrip line
    if containsSubstr stripped (tStr "keymap = [") then
      extractAux true idx last_comment names rest
    else if !in_keymap then
      extractAux in_keymap idx last_comment names rest
    else if stripped = tStr "]" then names
    else if strStartsWith stripped (tStr "#") && !strStartsWith stripped (tStr "##") then
      extractAux in_keymap idx (some (pyStrip (stripped.drop 1))) names rest
    else if stripped = tStr "[" then
      match last_comment with
      | some c =>
        if c = [] then extractAux in_keymap idx last_comment names rest
        else extractAux in_keymap (idx + 1) none (names ++ [(idx, c)]) rest
      | none => extractAux in_keymap idx last_comment names rest
    else
      extractAux in_keymap idx last_comment names rest

/-- `_extract_layer_names`, as the map from layer index to extracted name. -/
def _extract_layer_names (lines : List (List Char)) : List (Nat × List Char) :=
  extractAux false 0 none [] lines

/-- `get_layer_name`: the extracted name, defaulting to `str(layer_idx)`. -/
def get_layer_name (names : List (Nat × List Char)) (layer_idx : Nat) : List Char :=
  (pyDictLookup names layer_idx).getD (Nat.toDigits 10 layer_idx)

/-- The `Layer {i}: {name}` interpolation used for titles and comments. -/
def layer_title (names : List (Nat × List Char)) (layer_idx : Nat) : List Char :=
  tStr "Layer " ++ Nat.toDigits 10 layer_idx ++ tStr ": " ++ get_layer_name names layer_idx

/-- The `layer{i}` group id. -/
def layer_gid (layer_idx : Nat) : List Char :=
  tStr "layer" ++ Nat.toDigits 10 layer_idx

/-- The block `generate_layer` emits for a layer index at or beyond the end
of the keymap array: title plus the no-key-mappings notice. -/
def layer_placeholder (names : List (Nat × List Char)) (layer_idx : Nat)
    (y_offset : ℚ) : List Svg :=
  [ Svg.groupOpen (layer_gid layer_idx) 50 y_offset,
    Svg.text 400 0 (tStr "layer-title") (layer_title names layer_idx),
    Svg.text 400 150 (tStr "legend")
      (tStr "(Layer is defined but has no key mappings in keyboard.toml)"),
    Svg.groupClose ]

/-- One half of a layer: rows 0–3, columns 0–5 against a position table,
with the column offset 0 (left) or 6 (right). -/
def generate_half (positions : List (Option (ℚ × ℚ)))
    (layer_keys : List (List (List Char))) (layer_idx col_offset : Nat) : List Svg :=
  (List.range 4).flatMap fun row =>
    (List.range 6).flatMap fun col =>
      match positions.getD (row * 6 + col) none with
      | none => []
      | some pos =>
        let key := getTok layer_keys row (col + col_offset)
        generate_key pos.1 pos.2 key layer_idx (decide (key = tStr "_" ∧ 0 < layer_idx))

/-- `generate_layer`. -/
def generate_layer (cfg : Config) (names : List (Nat × List Char))
    (layer_idx : Nat) (y_offset : ℚ) : List Svg :=
  if h : cfg.keymap.length ≤ layer_idx then
    layer_placeholder names layer_idx y_offset
  else
    let layer_keys := cfg.keymap.get ⟨layer_idx, Nat.lt_of_not_le h⟩
    [ Svg.comment (layer_title names layer_idx),
      Svg.groupOpen (layer_gid layer_idx) 50 y_offset,
      Svg.text 400 0 (tStr "layer-title") (layer_title names layer_idx),
      Svg.comment (tStr "Left half") ] ++
    generate_half LEFT_POSITIONS layer_keys layer_idx 0 ++
    [Svg.comment (tStr "Right half")] ++
    generate_half RIGHT_POSITIONS layer_keys layer_idx 6 ++
    (match cfg.combos with
     | none => []
     | some combos =>
       if combos = [] then []
       else
         Svg.comment (tStr "Combos") ::
         combos.flatMap fun combo => generate_combo_visual cfg combo layer_idx 0 0) ++
    [Svg.groupClose]

/-- `generate_legend`. -/
def generate_legend (cfg : Config) (names : List (Nat × List Char))
    (y_offset : ℚ) : List Svg :=
  [ Svg.comment (tStr "Legend"),
    Svg.groupOpen (tStr "legend") 50 y_offset,
    Svg.text 0 0 (tStr "layer-title") (tStr "Legend &amp; Info"),
    Svg.text 0 40 (tStr "legend")
      (tStr "• Keyboard: " ++ cfg.name ++ tStr " (Split 3×6+3 layout)"),
    Svg.text 0 65 (tStr "legend") (tStr "• Total Keys: 42 (21 per side)") ] ++
  (match cfg.combos with
   | none => []
   | some combos =>
     if combos = [] then []
     else
       (combos.take 3).map fun combo =>
         Svg.text 0 (90 + 25 * (combos.indexOf combo : ℚ)) (tStr "legend")
           (tStr "• Combo: " ++ List.intercalate (tStr " + ") combo.actions ++
            tStr " = " ++ combo.output)) ++
  [Svg.text 0 115 (tStr "legend")
    (tStr "• MT() = Mod-Tap (hold for modifier, tap for key)")] ++
  ((List.range (min cfg.layers 5)).flatMap fun i =>
    [ Svg.rect 0 ((140 + 40 * i : ℕ) : ℚ) 50 30 (tStr "key")
        (some ((pyDictLookup LAYER_COLORS i).getD (tStr "#f0f0f0"))),
      Svg.text 60 ((140 + 40 * i + 20 : ℕ) : ℚ) (tStr "legend")
        (tStr "Layer " ++ Nat.toDigits 10 i ++ tStr ": " ++ get_layer_name names i) ]) ++
  [ Svg.rect 0 ((140 + 40 * min cfg.layers 5 : ℕ) : ℚ) 50 30 (tStr "key-empty") none,
    Svg.text 60 ((140 + 40 * min cfg.layers 5 + 20 : ℕ) : ℚ) (tStr "legend")
      (tStr "Transparent key (passes through to lower layer)"),
    Svg.groupClose ]

/-- The generated document: dimensions, one block per declared layer, the
legend, and the footer. -/
structure SvgDoc where
  width : ℚ
  height : ℚ
  layerBlocks : List (List Svg)
  legend : List Svg
  footer : List Svg
deriving DecidableEq

/-- The body of `generate` after the config is loaded. -/
def renderDoc (cfg : Config) (names : List (Nat × List Char)) : SvgDoc :=
  let total_height : ℚ := 50 + (cfg.layers : ℚ) * 350 + 400
  { width := 1600
    height := total_height
    layerBlocks := (List.range cfg.layers).map fun layer_idx =>
      generate_layer cfg names layer_idx (50 + (layer_idx : ℚ) * 350)
    legend := generate_legend cfg names (50 + (cfg.layers : ℚ) * 350)
    footer := [Svg.text (1600 - 50) (total_height - 50) (tStr "legend")
      (tStr "Generated from keyboard.toml and vial.json")] }

/-- The two recognized failure kinds of a run. -/
inductive GenFailure where
  | resourceNotFound
  | generationFailed
deriving DecidableEq

/-- `generate`: `load_config` opens the TOML file (its parsed config and its
raw lines), raising `FileNotFoundError` when it is absent; the JSON file is
never opened on this path (`load_vial` has no caller), so its content — or
absence — is ignored. -/
def generate_run (toml : Option (Config × List (List Char)))
    (vial : Option (List Char)) : Except GenFailure SvgDoc :=
  match toml with
  | none => Except.error GenFailure.resourceNotFound
  | some tf => Except.ok (renderDoc tf.1 (_extract_layer_names tf.2))

/-- The process exit status of `main`: 0 on success, 1 when `generate`
raises (`FileNotFoundError` or any other exception). -/
def main_exit (toml : Option (Config × List (List Char)))
    (vial : Option (List Char)) : Nat :=
  match generate_run toml vial with
  | Except.ok _ => 0
  | Except.error _ => 1

/-- The text contents embedded in a run of SVG elements, in order. -/
def svgTexts (l : List Svg) : List (List Char) :=
  l.filterMap fun e =>
    match e with
    | Svg.text _ _ _ c => some c
    | _ => none

/-- A minimal parsed config: empty keymap, zero declared layers. -/
def cfg_empty : Config :=
  { keymap := [], layers := 0, name := tStr "kb", combos := none }

theorem strStartsWith_cons {s : List Char} {p : Char} {ps : List Char}
    (h : strStartsWith s (p :: ps) = true) :
    ∃ t, s = p :: t ∧ strStartsWith t ps = true := by
  cases s with
  | nil => simp [strStartsWith] at h
  | cons c cs =>
    simp only [strStartsWith, Bool.and_eq_true, beq_iff_eq] at h
    exact ⟨cs, by rw [h.1], h.2⟩

/-- C9: `are_keys_contiguous` is symmetric in its two coordinate
arguments. -/
theorem are_keys_contiguous_symm (a b : ℚ × ℚ) :
    are_keys_contiguous a b = are_keys_contiguous b a := by
  unfold are_keys_contiguous
  rw [decide_eq_decide]
  have e1 : (a.1 - b.1) ^ 2 = (b.1 - a.1) ^ 2 := by ring
  have e2 : (a.2 - b.2) ^ 2 = (b.2 - a.2) ^ 2 := by ring
  rw [e1, e2]

/-- C1: the code renders the transparency marker `"_"` as the dashed
`key-empty` placeholder even on layer 0 with `is_transparent = False`
(the flag `generate_layer` computes there), because `generate_key` re-tests
`label == "_"` itself; the claim (and the `is_transparent` machinery's
evident intent) calls for a normal filled, layer-colored key labeled `—`
on layer 0. -/
theorem generate_key_underscore_layer0_dashed (x y : ℚ) :
    generate_key x y (tStr "_") 0 (decide (tStr "_" = tStr "_" ∧ 0 < 0)) =
      [ Svg.rect x y 50 50 (tStr "key-empty") none,
        Svg.text (x + 25) (y + 28) (tStr "empty-label") (tStr "—") ] := rfl

/-- C2: with the layout TOML present and the vial JSON absent, the run
succeeds with exit status 0 — `generate` never opens the JSON file
(`load_vial` has no caller) — while a missing TOML alone does fail with
`FileNotFoundError` (the `ResourceNotFound` kind) and exit status 1. -/
theorem missing_vial_run_succeeds :
    main_exit (some (cfg_empty, [])) none = 0 ∧
    main_exit none (some (tStr "vial")) = 1 ∧
    generate_run none (some (tStr "vial")) = Except.error GenFailure.resourceNotFound :=
  ⟨rfl, rfl, rfl⟩

/-- A keymap-block line that triggers none of `_extract_layer_names`'
branches: it does not contain `keymap = [`, its stripped form is neither
`]` nor `[`, and it is not a single-`#` comment. -/
def lineNeutral (l : List Char) : Prop :=
  containsSubstr (pyStrip l) (tStr "keymap = [") = false ∧
  pyStrip l ≠ tStr "]" ∧
  pyStrip l ≠ tStr "[" ∧
  (strStartsWith (pyStrip l) (tStr "#") && !strStartsWith (pyStrip l) (tStr "##")) = false

instance (l : List Char) : Decidable (lineNeutral l) := by
  unfold lineNeutral
  infer_instance

theorem extract_step_neutral {idx : Nat} {lc : Option (List Char)}
    {names : List (Nat × List Char)} {l : List Char} {rest : List (List Char)}
    (h : lineNeutral l) :
    extractAux true idx lc names (l :: rest) = extractAux true idx lc names rest := by
  obtain ⟨h1, h2, h3, h4⟩ := h
  rw [extractAux.eq_def]
  simp only [h1, h2, h3, h4, Bool.not_true, Bool.false_eq_true, if_false,
    Bool.not_false, if_true, if_neg h2, if_neg h3]

theorem extract_step_commit {idx : Nat} {c : List Char}
    {names : List (Nat × List Char)} {rest : List (List Char)} (hc : c ≠ []) :
    extractAux true idx (some c) names (tStr "[" :: rest) =
      extractAux true (idx + 1) none (names ++ [(idx, c)]) rest := by
  show (if c = [] then extractAux true idx (some c) names rest
        else extractAux true (idx + 1) none (names ++ [(idx, c)]) rest) =
      extractAux true (idx + 1) none (names ++ [(idx, c)]) rest
  rw [if_neg hc]

/-- C4 (amended): inside the keymap block, a pending non-empty candidate
comment is committed as the next layer's name at the next line whose
stripped form is exactly `[`, even when neutral (non-comment, non-bracket)
lines intervene; an empty candidate (a bare `#` comment, falsy in Python's
truthiness test) commits nothing and does not advance the layer index. -/
theorem extract_commit_at_next_open_bracket :
    (∀ (mid rest : List (List Char)) (idx : Nat) (c : List Char)
      (names : List (Nat × List Char)),
      (∀ l ∈ mid, lineNeutral l) → c ≠ [] →
      extractAux true idx (some c) names (mid ++ tStr "[" :: rest) =
        extractAux true (idx + 1) none (names ++ [(idx, c)]) rest) ∧
    (∀ (rest : List (List Char)) (idx : Nat) (names : List (Nat × List Char)),
      extractAux true idx (some []) names (tStr "[" :: rest) =
        extractAux true idx (some []) names rest) := by
  constructor
  · intro mid rest idx c names hmid hc
    induction mid with
    | nil => exact extract_step_commit hc
    | cons l mid ih =>
      rw [List.cons_append, extract_step_neutral (hmid l (List.mem_cons_self l mid))]
      exact ih fun l' hl' => hmid l' (List.mem_cons_of_mem l hl')
  · intro rest idx names
    rfl

theorem extract_commit_at_next_open_bracket_witness :
    extractAux true 0 (some (tStr "NameA")) [] ([tStr "x = 1", tStr ""] ++ tStr "[" :: []) =
      extractAux true 1 none ([] ++ [(0, tStr "NameA")]) [] :=
  extract_commit_at_next_open_bracket.1 [tStr "x = 1", tStr ""] [] 0 (tStr "NameA") []
    (by decide) (by decide)

/-- C4 (counterexample): the candidate comment `# NameA` is followed by the
non-comment line `x = 1` before the next `[`, yet it still names layer 0 —
candidates are not discarded by intervening lines. -/
theorem extract_commit_despite_intervening_line :
    _extract_layer_names
      [tStr "keymap = [", tStr "# NameA", tStr "x = 1", tStr "[", tStr "]"] =
      [(0, tStr "NameA")] := by decide

/-- C5: the document has exactly `layout.layers` layer blocks, and every
block whose index is at or beyond the keymap array's length is the
title-plus-notice placeholder. -/
theorem declared_layer_count_blocks (cfg : Config) (names : List (Nat × List Char)) :
    (renderDoc cfg names).layerBlocks.length = cfg.layers ∧
    ∀ i, cfg.keymap.length ≤ i → i < cfg.layers →
      (renderDoc cfg names).layerBlocks.getD i [] =
        layer_placeholder names i (50 + (i : ℚ) * 350) := by
  constructor
  · simp [renderDoc]
  · intro i hk hi
    simp only [renderDoc]
    rw [List.getD_eq_getElem?_getD, List.getElem?_map, List.getElem?_range hi]
    simp only [Option.map_some', Option.getD_some]
    rw [generate_layer, dif_pos hk]

theorem declared_layer_count_blocks_witness :
    (renderDoc { keymap := [[[tStr "a"]]], layers := 2, name := tStr "kb", combos := none } []).layerBlocks.length =
      ({ keymap := [[[tStr "a"]]], layers := 2, name := tStr "kb", combos := none } : Config).layers ∧
    (renderDoc { keymap := [[[tStr "a"]]], layers := 2, name := tStr "kb", combos := none } []).layerBlocks.getD 1 [] =
      layer_placeholder [] 1 (50 + ((1 : Nat) : ℚ) * 350) :=
  ⟨(declared_layer_count_blocks _ []).1,
   (declared_layer_count_blocks _ []).2 1 (by decide) (by decide)⟩

theorem startsWith_MT_shape {key : List Char}
    (h : strStartsWith key (tStr "MT(") = true) :
    ∃ t, key = 'M' :: 'T' :: '(' :: t := by
  obtain ⟨t1, rfl, h1⟩ := strStartsWith_cons h
  obtain ⟨t2, rfl, h2⟩ := strStartsWith_cons h1
  obtain ⟨t3, rfl, _⟩ := strStartsWith_cons h2
  exact ⟨t3, rfl⟩

theorem startsWith_SHIFTED_shape {key : List Char}
    (h : strStartsWith key (tStr "SHIFTED(") = true) :
    ∃ t, key = 'S' :: t := by
  obtain ⟨t, rfl, _⟩ := strStartsWith_cons h
  exact ⟨t, rfl⟩

theorem M_headed_not_blank {t : List Char} :
    ¬ ('M' :: 'T' :: '(' :: t = [] ∨ 'M' :: 'T' :: '(' :: t = tStr "_") := by
  rintro (h | h)
  · exact List.cons_ne_nil _ _ h
  · injection h with h1 _
    exact absurd h1 (by decide)

theorem S_headed_not_blank {t : List Char} :
    ¬ ('S' :: t = [] ∨ 'S' :: t = tStr "_") := by
  rintro (h | h)
  · exact List.cons_ne_nil _ _ h
  · injection h with h1 _
    exact absurd h1 (by decide)

theorem M_headed_not_SHIFTED (t : List Char) :
    strStartsWith ('M' :: t) (tStr "SHIFTED(") = false := rfl

theorem S_headed_not_MT (t : List Char) :
    strStartsWith ('S' :: t) (tStr "MT(") = false := rfl

theorem replacements_lookup_MT (t : List Char) :
    pyDictLookup replacements ('M' :: 'T' :: '(' :: t) = none := rfl

theorem mt_label_shape {key : List Char} {r : List (List Char) × Bool}
    (h : mt_label key = some r) : ∃ s, r = ([s], true) := by
  unfold mt_label at h
  by_cases hmt : strStartsWith key (tStr "MT(") = true
  · rw [if_pos hmt] at h
    rcases hp : (splitOnChar ',' ((key.drop 3).dropLast)).map pyStrip
      with _ | ⟨a, _ | ⟨b, _ | ⟨c, rest⟩⟩⟩ <;> rw [hp] at h <;> simp at h
    exact ⟨_, h.symm⟩
  · rw [if_neg hmt] at h
    simp at h

/-- C6: `format_key_label` always returns a non-empty line list, and a
plain token — non-blank, not the transparency marker, not an `MT(`/
`SHIFTED(` form, absent from the `replacements` table — passes through
verbatim as the single display line. -/
theorem format_key_label_total :
    (∀ key, (format_key_label key).1 ≠ []) ∧
    (∀ key, key ≠ [] → key ≠ tStr "_" →
      strStartsWith key (tStr "MT(") = false →
      strStartsWith key (tStr "SHIFTED(") = false →
      pyDictLookup replacements key = none →
      format_key_label key = ([key], decide (3 < key.length))) := by
  constructor
  · intro key
    by_cases h0 : key = [] ∨ key = tStr "_"
    · rw [format_key_label, if_pos h0]
      simp
    · rw [format_key_label, if_neg h0]
      cases hmt : mt_label key with
      | some r =>
        obtain ⟨s, rfl⟩ := mt_label_shape hmt
        simp
      | none =>
        by_cases hs : strStartsWith key (tStr "SHIFTED(") = true
        · rw [if_pos hs]
          unfold shifted_label
          cases pyDictLookup shifted_map ((key.drop 8).dropLast) <;> simp
        · rw [if_neg hs]
          unfold plain_label
          simp
  · intro key h1 h2 hmt hs hrepl
    have h0 : ¬ (key = [] ∨ key = tStr "_") := by
      rintro (h | h) <;> [exact h1 h; exact h2 h]
    have hmty : mt_label key = none := by
      unfold mt_label
      rw [if_neg (by simp [hmt])]
    rw [format_key_label, if_neg h0, hmty, if_neg (by simp [hs])]
    unfold plain_label
    rw [hrepl]
    rfl

theorem format_key_label_total_witness :
    (format_key_label (tStr "hello")).1 ≠ [] ∧
    format_key_label (tStr "hello") = ([tStr "hello"], decide (3 < (tStr "hello").length)) :=
  ⟨format_key_label_total.1 (tStr "hello"),
   format_key_label_total.2 (tStr "hello") (by decide) (by decide) (by decide)
     (by decide) (by decide)⟩

/-- C8: the fixed formatting rules for compound tokens: an `MT(`-token whose
content splits (after stripping) into exactly two comma-separated parts
yields the single compact line `<key>/<shortened modifier>` (example:
`MT(a, LGui)` gives `a/Gui`, compact); a `SHIFTED(`-token yields the mapped
symbol of the 21-entry shift table in normal font when its content is in
the table (example: `SHIFTED(9)` gives `(`), and the line `S-<content>`
otherwise. -/
theorem compound_token_rules :
    (∀ key k m, strStartsWith key (tStr "MT(") = true →
      (splitOnChar ',' ((key.drop 3).dropLast)).map pyStrip = [k, m] →
      format_key_label key = ([k ++ tStr "/" ++ shortenMod m], true)) ∧
    format_key_label (tStr "MT(a, LGui)") = ([tStr "a/Gui"], true) ∧
    (∀ key sym, strStartsWith key (tStr "SHIFTED(") = true →
      pyDictLookup shifted_map ((key.drop 8).dropLast) = some sym →
      format_key_label key = ([sym], false)) ∧
    (∀ key, strStartsWith key (tStr "SHIFTED(") = true →
      pyDictLookup shifted_map ((key.drop 8).dropLast) = none →
      format_key_label key = ([tStr "S-" ++ (key.drop 8).dropLast], false)) ∧
    format_key_label (tStr "SHIFTED(9)") = ([tStr "("], false) ∧
    shifted_map.length = 21 := by
  refine ⟨?_, by decide, ?_, ?_, by decide, by decide⟩
  · intro key k m hmt hsplit
    obtain ⟨t, rfl⟩ := startsWith_MT_shape hmt
    have hmty : mt_label ('M' :: 'T' :: '(' :: t) =
        some ([k ++ tStr "/" ++ shortenMod m], true) := by
      unfold mt_label
      rw [if_pos hmt, hsplit]
    rw [format_key_label, if_neg M_headed_not_blank, hmty]
  · intro key sym hs hlook
    obtain ⟨t, rfl⟩ := startsWith_SHIFTED_shape hs
    have hmty : mt_label ('S' :: t) = none := by
      unfold mt_label
      rw [if_neg (by simp [S_headed_not_MT])]
    rw [format_key_label, if_neg S_headed_not_blank, hmty, if_pos hs]
    unfold shifted_label
    rw [hlook]
  · intro key hs hlook
    obtain ⟨t, rfl⟩ := startsWith_SHIFTED_shape hs
    have hmty : mt_label ('S' :: t) = none := by
      unfold mt_label
      rw [if_neg (by simp [S_headed_not_MT])]
    rw [format_key_label, if_neg S_headed_not_blank, hmty, if_pos hs]
    unfold shifted_label
    rw [hlook]

theorem compound_token_rules_witness :
    format_key_label (tStr "MT(x,LShift)") =
      ([tStr "x" ++ tStr "/" ++ shortenMod (tStr "LShift")], true) ∧
    format_key_label (tStr "SHIFTED(0)") = ([tStr ")"], false) ∧
    format_key_label (tStr "SHIFTED(zz)") =
      ([tStr "S-" ++ ((tStr "SHIFTED(zz)").drop 8).dropLast], false) :=
  ⟨compound_token_rules.1 (tStr "MT(x,LShift)") (tStr "x") (tStr "LShift")
      (by decide) (by decide),
   compound_token_rules.2.2.1 (tStr "SHIFTED(0)") (tStr ")") (by decide) (by decide),
   compound_token_rules.2.2.2.1 (tStr "SHIFTED(zz)") (by decide) (by decide)⟩

/-- C10: a token that starts with `MT(` but whose bracketed content does not
split into exactly two comma-separated parts falls through to the plain
path: the whole original token is the single display line, with the compact
font exactly when the token is longer than three characters. -/
theorem mt_malformed_falls_through (key : List Char)
    (hmt : strStartsWith key (tStr "MT(") = true)
    (hlen : ((splitOnChar ',' ((key.drop 3).dropLast)).map pyStrip).length ≠ 2) :
    format_key_label key = ([key], decide (3 < key.length)) := by
  obtain ⟨t, rfl⟩ := startsWith_MT_shape hmt
  have hmty : mt_label ('M' :: 'T' :: '(' :: t) = none := by
    unfold mt_label
    rw [if_pos hmt]
    rcases hp : (splitOnChar ',' ((('M' :: 'T' :: '(' :: t).drop 3).dropLast)).map pyStrip
      with _ | ⟨a, _ | ⟨b, _ | ⟨c, r⟩⟩⟩
    · rfl
    · rfl
    · rw [hp] at hlen
      simp at hlen
    · rfl
  rw [format_key_label, if_neg M_headed_not_blank, hmty,
    if_neg (by simp [M_headed_not_SHIFTED]), plain_label, replacements_lookup_MT]
  rfl

theorem mt_malformed_falls_through_witness :
    format_key_label (tStr "MT(") = ([tStr "MT("], decide (3 < (tStr "MT(").length)) :=
  mt_malformed_falls_through (tStr "MT(") (by decide) (by decide)

/-- C7: a combo renders nothing when its declared layer is not the layer
being rendered, when it has fewer than two action tokens, or when fewer
than two of its tokens resolve to positions on that layer. -/
theorem combo_visual_empty_conditions (cfg : Config) (combo : Combo)
    (layer_idx : Nat) (x_offset y_offset : ℚ)
    (h : combo.layer ≠ layer_idx ∨ combo.actions.length < 2 ∨
      (combo_positions cfg combo layer_idx).length < 2) :
    generate_combo_visual cfg combo layer_idx x_offset y_offset = [] := by
  unfold generate_combo_visual
  by_cases h1 : combo.layer ≠ layer_idx
  · rw [if_pos h1]
  · rw [if_neg h1]
    by_cases h2 : combo.actions.length < 2
    · rw [if_pos h2]
    · rw [if_neg h2]
      rcases h with h | h | h
      · exact absurd h h1
      · exact absurd h h2
      · rw [if_pos h]

theorem combo_visual_empty_conditions_witness :
    generate_combo_visual cfg_empty
      { actions := [tStr "a", tStr "b"], output := tStr "c", layer := 1 } 0 0 0 = [] :=
  combo_visual_empty_conditions cfg_empty
    { actions := [tStr "a", tStr "b"], output := tStr "c", layer := 1 } 0 0 0
    (Or.inl (by decide))

@[simp] theorem svgTexts_nil : svgTexts [] = [] := rfl

@[simp] theorem svgTexts_cons_text (x y : ℚ) (cls c : List Char) (l : List Svg) :
    svgTexts (Svg.text x y cls c :: l) = c :: svgTexts l := rfl

@[simp] theorem svgTexts_cons_rect (x y w h : ℚ) (cls : List Char)
    (f : Option (List Char)) (l : List Svg) :
    svgTexts (Svg.rect x y w h cls f :: l) = svgTexts l := rfl

@[simp] theorem svgTexts_cons_line (x1 y1 x2 y2 : ℚ) (cls : List Char) (l : List Svg) :
    svgTexts (Svg.line x1 y1 x2 y2 cls :: l) = svgTexts l := rfl

@[simp] theorem svgTexts_cons_circle (cx cy r : ℚ) (cls : List Char) (l : List Svg) :
    svgTexts (Svg.circle cx cy r cls :: l) = svgTexts l := rfl

@[simp] theorem svgTexts_cons_comment (s : List Char) (l : List Svg) :
    svgTexts (Svg.comment s :: l) = svgTexts l := rfl

@[simp] theorem svgTexts_cons_groupOpen (gid : List Char) (tx ty : ℚ) (l : List Svg) :
    svgTexts (Svg.groupOpen gid tx ty :: l) = svgTexts l := rfl

@[simp] theorem svgTexts_cons_groupClose (l : List Svg) :
    svgTexts (Svg.groupClose :: l) = svgTexts l := rfl

@[simp] theorem svgTexts_append (l1 l2 : List Svg) :
    svgTexts (l1 ++ l2) = svgTexts l1 ++ svgTexts l2 :=
  List.filterMap_append l1 l2 _

theorem format_key_label_singleton (key : List Char) :
    ∃ s, (format_key_label key).1 = [s] := by
  by_cases h0 : key = [] ∨ key = tStr "_"
  · rw [format_key_label, if_pos h0]
    exact ⟨_, rfl⟩
  · rw [format_key_label, if_neg h0]
    cases hmt : mt_label key with
    | some r =>
      obtain ⟨s, rfl⟩ := mt_label_shape hmt
      exact ⟨s, rfl⟩
    | none =>
      by_cases hs : strStartsWith key (tStr "SHIFTED(") = true
      · rw [if_pos hs]
        unfold shifted_label
        cases pyDictLookup shifted_map ((key.drop 8).dropLast) <;> exact ⟨_, rfl⟩
      · rw [if_neg hs]
        exact ⟨_, rfl⟩

/-- C3 (counterexample): a layer named `<x>`; the title embedded in the
output is the raw `Layer 0: <x>`, not the XML-escaped form the claim
requires, so the layer title name is embedded without escaping. -/
theorem layer_title_embedded_unescaped :
    generate_layer { keymap := [], layers := 1, name := tStr "kb", combos := none }
        [(0, tStr "<x>")] 0 50 =
      [ Svg.groupOpen (tStr "layer0") 50 50,
        Svg.text 400 0 (tStr "layer-title") (tStr "Layer 0: <x>"),
        Svg.text 400 150 (tStr "legend")
          (tStr "(Layer is defined but has no key mappings in keyboard.toml)"),
        Svg.groupClose ] ∧
    tStr "Layer 0: <x>" ≠ tStr "Layer 0: " ++ escape_xml (tStr "<x>") :=
  ⟨rfl, by decide⟩

/-- C3 (amended): key-label texts and combo output labels pass through
`escape_xml` before embedding, while layer titles (with their layer names)
and the keyboard name line of the legend are embedded verbatim, without
escaping. -/
theorem escaping_scope_amended :
    (∀ (x y : ℚ) (label : List Char) (layer_idx : Nat) (t : Bool),
      svgTexts (generate_key x y label layer_idx t) = [tStr "—"] ∨
      svgTexts (generate_key x y label layer_idx t) =
        (format_key_label label).1.map escape_xml) ∧
    (∀ (cfg : Config) (combo : Combo) (layer_idx : Nat) (xo yo : ℚ),
      svgTexts (generate_combo_visual cfg combo layer_idx xo yo) = [] ∨
      svgTexts (generate_combo_visual cfg combo layer_idx xo yo) =
        [combo_output_label combo.output]) ∧
    (∀ (cfg : Config) (names : List (Nat × List Char)) (layer_idx : Nat) (y : ℚ),
      layer_title names layer_idx ∈ svgTexts (generate_layer cfg names layer_idx y)) ∧
    (∀ (cfg : Config) (names : List (Nat × List Char)) (y : ℚ),
      (tStr "• Keyboard: " ++ cfg.name ++ tStr " (Split 3×6+3 layout)") ∈
        svgTexts (generate_legend cfg names y)) := by
  refine ⟨?_, ?_, ?_, ?_⟩
  · intro x y label layer_idx t
    simp only [generate_key]
    split
    · exact Or.inl rfl
    · right
      obtain ⟨s, hs⟩ := format_key_label_singleton label
      rw [hs]
      rw [if_pos (show ([s] : List (List Char)).length = 1 from rfl)]
      rfl
  · intro cfg combo layer_idx xo yo
    simp only [generate_combo_visual]
    split
    · exact Or.inl rfl
    split
    · exact Or.inl rfl
    split
    · exact Or.inl rfl
    split
    · exact Or.inr rfl
    · split
      · right
        simp only [List.filterMap_map, svgTexts, svgTexts_cons_comment]
        simp
        intro a ha
        obtain ⟨p, -, rfl⟩ := List.mem_map.mp (List.mem_of_mem_tail ha)
        rfl
      · left
        simp only [List.filterMap_map, svgTexts, svgTexts_cons_comment]
        simp
        intro a ha
        obtain ⟨p, -, rfl⟩ := List.mem_map.mp (List.mem_of_mem_tail ha)
        rfl
  · intro cfg names layer_idx y
    rw [generate_layer]
    split
    · exact List.mem_cons_self _ _
    · simp
  · intro cfg names y
    unfold generate_legend
    simp

end KeyboardSvg
